import Mathlib

/-!
Shallow embedding of the decode engine of the yolo-helpers package.

Raw tensor values are modelled as rationals (`ℚ`); a batched prediction
output is a nested list `[batch][channel][slot]`.  JavaScript array reads
`a[i]` are modelled with `List.getD` (out-of-range reads yield the default
`0`); the places where JavaScript would throw a `TypeError` on an
`undefined` intermediate value (for example `batches[0]` on an empty array)
are modelled as an `Except.error`.  The external
`tf.image.nonMaxSuppression` / `nonMaxSuppressionAsync` primitives are not
part of the repository; the decoders take them as an oracle parameter
(`NmsFn`).  Throwing functions return `Except String`; the thrown message
mirrors the source message.
-/

/-- JavaScript-style read of a 2D array: `m[i][j]` with default 0. -/
def get2 (m : List (List ℚ)) (i j : Nat) : ℚ :=
  (m.getD i []).getD j 0

/-- JavaScript-style read of a 3D array: `m[h][w][i]` with default 0. -/
def get3 (m : List (List (List ℚ))) (h w i : Nat) : ℚ :=
  ((m.getD h []).getD w []).getD i 0

/-- `BoundingBox` of src/yolo-box/common.ts. -/
structure BoundingBox where
  x : ℚ
  y : ℚ
  width : ℚ
  height : ℚ
  class_index : Nat
  confidence : ℚ
  all_confidences : List ℚ
deriving DecidableEq, Repr

/-- `Keypoint` of the pose decoder sources. -/
structure Keypoint where
  x : ℚ
  y : ℚ
  visibility : ℚ
deriving DecidableEq, Repr

/-- `BoundingBoxWithKeypoints` of the pose decoder sources. -/
structure BoundingBoxWithKeypoints extends BoundingBox where
  keypoints : List Keypoint
deriving DecidableEq, Repr

/-- `BoundingBoxWithMaskCoefficients` of the segment decoder sources. -/
structure BoundingBoxWithMaskCoefficients extends BoundingBox where
  mask_coefficients : List ℚ
deriving DecidableEq, Repr

/-- One entry of `SegmentResult`: the surviving boxes of a batch together
with the batch's raw prototype mask tensor, returned unmodified. -/
structure SegmentBatch where
  bounding_boxes : List BoundingBoxWithMaskCoefficients
  masks : List (List (List ℚ))
deriving DecidableEq, Repr

/-- `ImageResult` of src/yolo-classify/common.ts. -/
structure ImageResult where
  class_index : Nat
  confidence : ℚ
  all_confidences : List ℚ
deriving DecidableEq, Repr

/-- Oracle for the external `tf.image.nonMaxSuppression(Async)` primitive:
corner boxes, scores, `maxOutputSize`, `iouThreshold?`, `scoreThreshold?`
to a list of selected slot indices. -/
abbrev NmsFn :=
  List (ℚ × ℚ × ℚ × ℚ) → List ℚ → Nat → Option ℚ → Option ℚ → List Nat

/-- A degenerate NMS oracle returning no index; used to evaluate the
decoders on inputs whose `maxOutputSize` is omitted (the oracle is then
never consulted). -/
def trivialNms : NmsFn := fun _ _ _ _ _ => []

/-- Corner-form conversion of one candidate slot:
`x1 = x - w/2, y1 = y - h/2, x2 = x + w/2, y2 = y + h/2`
read from channels 0..3 at `box_index`. -/
def cornerBox (batch : List (List ℚ)) (box_index : Nat) : ℚ × ℚ × ℚ × ℚ :=
  let x := get2 batch 0 box_index
  let y := get2 batch 1 box_index
  let width := get2 batch 2 box_index
  let height := get2 batch 3 box_index
  (x - width / 2, y - height / 2, x + width / 2, y + height / 2)

/-- The class-score scan of the box/segment decoders and of the revised
pose decoder: start from `batch[4][box_index]` and class 0, then for
`i = 1 .. num_classes - 1` take `batch[4+i][box_index]` when it is
strictly greater (ties keep the earlier index).  Returns
(best score, best class index). -/
def bestClass (batch : List (List ℚ)) (num_classes box_index : Nat) : ℚ × Nat :=
  (List.range (num_classes - 1)).foldl
    (fun acc k =>
      let i := k + 1
      let cls_score := get2 batch (4 + i) box_index
      if acc.1 < cls_score then (cls_score, i) else acc)
    (get2 batch 4 box_index, 0)

/-- The class-score scan of `decodePose` / `decodePoseSync` in
src/yolo-pose/common.ts.  The inner read is `batch[4 + i][i]` — the slot
position is the class counter `i`, not `box_index`; `box_index` is only
used for the initial `batch[4][box_index]`.  Transcribed exactly as
written. -/
def bestClassPoseLegacy (batch : List (List ℚ)) (num_classes box_index : Nat) : ℚ × Nat :=
  (List.range (num_classes - 1)).foldl
    (fun acc k =>
      let i := k + 1
      let cls_score := get2 batch (4 + i) i
      if acc.1 < cls_score then (cls_score, i) else acc)
    (get2 batch 4 box_index, 0)

/-- Materialisation of a surviving slot index: geometry and confidences are
re-read from the raw channels; `class_index` comes from the cached
`cls_indices` array. -/
def mkBoundingBox (batch : List (List ℚ)) (num_classes : Nat)
    (cls_indices : List Nat) (box_index : Nat) : BoundingBox :=
  let class_index := cls_indices.getD box_index 0
  { x := get2 batch 0 box_index
    y := get2 batch 1 box_index
    width := get2 batch 2 box_index
    height := get2 batch 3 box_index
    class_index := class_index
    confidence := get2 batch (4 + class_index) box_index
    all_confidences := (List.range num_classes).map fun i => get2 batch (4 + i) box_index }

/-- The `if (maxOutputSize) ... else ...` branch shared by all decoders:
JavaScript truthiness makes both an omitted `maxOutputSize` and the value
`0` take the else-branch, which returns all slot indices
`0 .. num_boxes - 1` in order; otherwise the NMS primitive is consulted. -/
def selectBoxIndices (nms : NmsFn) (maxOutputSize : Option Nat)
    (iouThreshold scoreThreshold : Option ℚ)
    (boxes : List (ℚ × ℚ × ℚ × ℚ)) (scores : List ℚ) (num_boxes : Nat) : List Nat :=
  match maxOutputSize with
  | some k =>
    if k = 0 then List.range num_boxes
    else nms boxes scores k iouThreshold scoreThreshold
  | none => List.range num_boxes

/-- Fuel-driven transcription of the keypoint walk
`for (offset = start; offset + 2 < length; offset += stride)`. -/
def kpWalkAux : Nat → Nat → Nat → Nat → List Nat
  | 0, _, _, _ => []
  | fuel + 1, stride, len, offset =>
    if offset + 2 < len then offset :: kpWalkAux fuel stride len (offset + stride)
    else []

/-- The list of channel offsets visited by the keypoint walk.  The fuel
`len` is enough for every positive stride. -/
def kpWalk (stride len offset : Nat) : List Nat :=
  kpWalkAux len stride len offset

/-- Keypoint extraction of the revised pose decoder: stride 3 and a
visibility read when `visibility` is set, stride 2 and a constant
visibility `1` otherwise. -/
def poseKeypoints (visibility : Bool) (length num_classes : Nat)
    (batch : List (List ℚ)) (box_index : Nat) : List Keypoint :=
  (kpWalk (if visibility then 3 else 2) length (4 + num_classes)).map fun offset =>
    { x := get2 batch offset box_index
      y := get2 batch (offset + 1) box_index
      visibility := if visibility then get2 batch (offset + 2) box_index else 1 }

/-- `DecodeBoxArgs` of src/yolo-box/common.ts (the `tf` runtime handle is
the NMS oracle parameter of the decode functions). -/
structure DecodeBoxArgs where
  num_classes : Nat
  output : List (List (List ℚ))
  maxOutputSize : Option Nat
  iouThreshold : Option ℚ
  scoreThreshold : Option ℚ

/-- Loop body of `decodeBox` for one batch: build corner boxes, scores and
best-class indices for all `num_boxes` slots, select surviving indices,
then materialise a `BoundingBox` per surviving index. -/
def decodeBoxBatch (nms : NmsFn) (num_classes num_boxes : Nat)
    (maxOutputSize : Option Nat) (iouThreshold scoreThreshold : Option ℚ)
    (batch : List (List ℚ)) : List BoundingBox :=
  let boxes := (List.range num_boxes).map (cornerBox batch)
  let scores := (List.range num_boxes).map fun b => (bestClass batch num_classes b).1
  let cls_indices := (List.range num_boxes).map fun b => (bestClass batch num_classes b).2
  (selectBoxIndices nms maxOutputSize iouThreshold scoreThreshold boxes scores num_boxes).map
    (mkBoundingBox batch num_classes cls_indices)

/-- `decodeBox` of src/yolo-box/common.ts.  Only the first batch's channel
count is inspected: zero channels short-circuit to an empty result, a
mismatch against `4 + num_classes` throws, otherwise every batch is
decoded. -/
def decodeBox (nms : NmsFn) (args : DecodeBoxArgs) :
    Except String (List (List BoundingBox)) :=
  match args.output with
  | [] => .error "TypeError: batches[0] is undefined"
  | batch0 :: _ =>
    if batch0.length = 0 then .ok []
    else if batch0.length ≠ 4 + args.num_classes then
      .error ("data[batch].length must be " ++ toString (4 + args.num_classes))
    else
      .ok (args.output.map
        (decodeBoxBatch nms args.num_classes (batch0.headD []).length
          args.maxOutputSize args.iouThreshold args.scoreThreshold))

/-- Loop body of `decodeBoxSync`; the source duplicates the whole loop of
`decodeBox`, with the blocking NMS call in place of the suspending one. -/
def decodeBoxBatchSync (nms : NmsFn) (num_classes num_boxes : Nat)
    (maxOutputSize : Option Nat) (iouThreshold scoreThreshold : Option ℚ)
    (batch : List (List ℚ)) : List BoundingBox :=
  let boxes := (List.range num_boxes).map (cornerBox batch)
  let scores := (List.range num_boxes).map fun b => (bestClass batch num_classes b).1
  let cls_indices := (List.range num_boxes).map fun b => (bestClass batch num_classes b).2
  (selectBoxIndices nms maxOutputSize iouThreshold scoreThreshold boxes scores num_boxes).map
    (mkBoundingBox batch num_classes cls_indices)

/-- `decodeBoxSync` of src/yolo-box/common.ts, a full textual duplicate of
`decodeBox` in the source. -/
def decodeBoxSync (nms : NmsFn) (args : DecodeBoxArgs) :
    Except String (List (List BoundingBox)) :=
  match args.output with
  | [] => .error "TypeError: batches[0] is undefined"
  | batch0 :: _ =>
    if batch0.length = 0 then .ok []
    else if batch0.length ≠ 4 + args.num_classes then
      .error ("data[batch].length must be " ++ toString (4 + args.num_classes))
    else
      .ok (args.output.map
        (decodeBoxBatchSync nms args.num_classes (batch0.headD []).length
          args.maxOutputSize args.iouThreshold args.scoreThreshold))

/-- `DecodePoseArgs` of src/yolo-pose/common.ts. -/
structure DecodePoseArgs where
  num_classes : Nat
  num_keypoints : Nat
  output : List (List (List ℚ))
  maxOutputSize : Option Nat
  iouThreshold : Option ℚ
  scoreThreshold : Option ℚ

/-- Materialisation of one pose box in src/yolo-pose/common.ts: the box
part as in `decodeBox`, plus a stride-3 keypoint walk that always reads a
visibility channel. -/
def mkPoseBox (length num_classes : Nat) (batch : List (List ℚ))
    (cls_indices : List Nat) (box_index : Nat) : BoundingBoxWithKeypoints :=
  { toBoundingBox := mkBoundingBox batch num_classes cls_indices box_index
    keypoints := (kpWalk 3 length (4 + num_classes)).map fun offset =>
      { x := get2 batch offset box_index
        y := get2 batch (offset + 1) box_index
        visibility := get2 batch (offset + 2) box_index } }

/-- Loop body of `decodePose` (src/yolo-pose/common.ts) for one batch.
The scoring scan is `bestClassPoseLegacy`, transcribing the
`batch[4 + i][i]` read of the source. -/
def decodePoseBatch (nms : NmsFn) (num_classes length num_boxes : Nat)
    (maxOutputSize : Option Nat) (iouThreshold scoreThreshold : Option ℚ)
    (batch : List (List ℚ)) : List BoundingBoxWithKeypoints :=
  let boxes := (List.range num_boxes).map (cornerBox batch)
  let scores := (List.range num_boxes).map fun b => (bestClassPoseLegacy batch num_classes b).1
  let cls_indices := (List.range num_boxes).map fun b => (bestClassPoseLegacy batch num_classes b).2
  (selectBoxIndices nms maxOutputSize iouThreshold scoreThreshold boxes scores num_boxes).map
    (mkPoseBox length num_classes batch cls_indices)

/-- `decodePose` of src/yolo-pose/common.ts: fixed channel layout
`4 + num_classes + num_keypoints * 3`. -/
def decodePose (nms : NmsFn) (args : DecodePoseArgs) :
    Except String (List (List BoundingBoxWithKeypoints)) :=
  match args.output with
  | [] => .error "TypeError: batches[0] is undefined"
  | batch0 :: _ =>
    if batch0.length = 0 then .ok []
    else if batch0.length ≠ 4 + args.num_classes + args.num_keypoints * 3 then
      .error ("data[0].length must be " ++ toString (4 + args.num_classes + args.num_keypoints * 3))
    else
      .ok (args.output.map
        (decodePoseBatch nms args.num_classes
          (4 + args.num_classes + args.num_keypoints * 3) (batch0.headD []).length
          args.maxOutputSize args.iouThreshold args.scoreThreshold))

/-- Loop body of `decodePoseSync`, duplicated from `decodePose` in the
source. -/
def decodePoseBatchSync (nms : NmsFn) (num_classes length num_boxes : Nat)
    (maxOutputSize : Option Nat) (iouThreshold scoreThreshold : Option ℚ)
    (batch : List (List ℚ)) : List BoundingBoxWithKeypoints :=
  let boxes := (List.range num_boxes).map (cornerBox batch)
  let scores := (List.range num_boxes).map fun b => (bestClassPoseLegacy batch num_classes b).1
  let cls_indices := (List.range num_boxes).map fun b => (bestClassPoseLegacy batch num_classes b).2
  (selectBoxIndices nms maxOutputSize iouThreshold scoreThreshold boxes scores num_boxes).map
    (mkPoseBox length num_classes batch cls_indices)

/-- `decodePoseSync` of src/yolo-pose/common.ts, a full textual duplicate
of `decodePose` in the source. -/
def decodePoseSync (nms : NmsFn) (args : DecodePoseArgs) :
    Except String (List (List BoundingBoxWithKeypoints)) :=
  match args.output with
  | [] => .error "TypeError: batches[0] is undefined"
  | batch0 :: _ =>
    if batch0.length = 0 then .ok []
    else if batch0.length ≠ 4 + args.num_classes + args.num_keypoints * 3 then
      .error ("data[0].length must be " ++ toString (4 + args.num_classes + args.num_keypoints * 3))
    else
      .ok (args.output.map
        (decodePoseBatchSync nms args.num_classes
          (4 + args.num_classes + args.num_keypoints * 3) (batch0.headD []).length
          args.maxOutputSize args.iouThreshold args.scoreThreshold))

/-- `DecodePoseArgs` of the revised pose decoder (the repository revision
that carries the mandatory `visibility` flag telling whether each keypoint
is `(x, y)` or `(x, y, visibility)`). -/
structure DecodePoseVArgs where
  num_classes : Nat
  num_keypoints : Nat
  visibility : Bool
  output : List (List (List ℚ))
  maxOutputSize : Option Nat
  iouThreshold : Option ℚ
  scoreThreshold : Option ℚ

/-- Materialisation of one pose box in the revised pose decoder. -/
def mkPoseVBox (visibility : Bool) (length num_classes : Nat)
    (batch : List (List ℚ)) (cls_indices : List Nat) (box_index : Nat) :
    BoundingBoxWithKeypoints :=
  { toBoundingBox := mkBoundingBox batch num_classes cls_indices box_index
    keypoints := poseKeypoints visibility length num_classes batch box_index }

/-- Loop body of the revised `decodePose` for one batch; the scoring scan
reads `batch[4 + i][box_index]` (`bestClass`). -/
def decodePoseVBatch (nms : NmsFn) (visibility : Bool) (num_classes length num_boxes : Nat)
    (maxOutputSize : Option Nat) (iouThreshold scoreThreshold : Option ℚ)
    (batch : List (List ℚ)) : List BoundingBoxWithKeypoints :=
  let boxes := (List.range num_boxes).map (cornerBox batch)
  let scores := (List.range num_boxes).map fun b => (bestClass batch num_classes b).1
  let cls_indices := (List.range num_boxes).map fun b => (bestClass batch num_classes b).2
  (selectBoxIndices nms maxOutputSize iouThreshold scoreThreshold boxes scores num_boxes).map
    (mkPoseVBox visibility length num_classes batch cls_indices)

/-- The revised `decodePose`: channel layout
`4 + num_classes + num_keypoints * (visibility ? 3 : 2)`. -/
def decodePoseV (nms : NmsFn) (args : DecodePoseVArgs) :
    Except String (List (List BoundingBoxWithKeypoints)) :=
  match args.output with
  | [] => .error "TypeError: batches[0] is undefined"
  | batch0 :: _ =>
    if batch0.length = 0 then .ok []
    else if batch0.length ≠
        4 + args.num_classes + args.num_keypoints * (if args.visibility then 3 else 2) then
      .error ("data[batch].length must be "
        ++ toString (4 + args.num_classes
            + args.num_keypoints * (if args.visibility then 3 else 2)))
    else
      .ok (args.output.map
        (decodePoseVBatch nms args.visibility args.num_classes
          (4 + args.num_classes + args.num_keypoints * (if args.visibility then 3 else 2))
          (batch0.headD []).length
          args.maxOutputSize args.iouThreshold args.scoreThreshold))

/-- Loop body of the revised `decodePoseSync`, duplicated from the
suspending variant in the source. -/
def decodePoseVBatchSync (nms : NmsFn) (visibility : Bool) (num_classes length num_boxes : Nat)
    (maxOutputSize : Option Nat) (iouThreshold scoreThreshold : Option ℚ)
    (batch : List (List ℚ)) : List BoundingBoxWithKeypoints :=
  let boxes := (List.range num_boxes).map (cornerBox batch)
  let scores := (List.range num_boxes).map fun b => (bestClass batch num_classes b).1
  let cls_indices := (List.range num_boxes).map fun b => (bestClass batch num_classes b).2
  (selectBoxIndices nms maxOutputSize iouThreshold scoreThreshold boxes scores num_boxes).map
    (mkPoseVBox visibility length num_classes batch cls_indices)

/-- The revised `decodePoseSync`, a full textual duplicate of the revised
`decodePose` in the source. -/
def decodePoseVSync (nms : NmsFn) (args : DecodePoseVArgs) :
    Except String (List (List BoundingBoxWithKeypoints)) :=
  match args.output with
  | [] => .error "TypeError: batches[0] is undefined"
  | batch0 :: _ =>
    if batch0.length = 0 then .ok []
    else if batch0.length ≠
        4 + args.num_classes + args.num_keypoints * (if args.visibility then 3 else 2) then
      .error ("data[batch].length must be "
        ++ toString (4 + args.num_classes
            + args.num_keypoints * (if args.visibility then 3 else 2)))
    else
      .ok (args.output.map
        (decodePoseVBatchSync nms args.visibility args.num_classes
          (4 + args.num_classes + args.num_keypoints * (if args.visibility then 3 else 2))
          (batch0.headD []).length
          args.maxOutputSize args.iouThreshold args.scoreThreshold))

/-- An image size as carried by the segment decoder arguments. -/
structure ImageSize where
  width : ℚ
  height : ℚ
deriving DecidableEq, Repr

/-- The union part of `DecodeSegmentArgs`: either an `input_shape` or a
`mask_shape`. -/
inductive MaskShapeArg where
  | input_shape (s : ImageSize)
  | mask_shape (s : ImageSize)
deriving DecidableEq, Repr

/-- `getMaskShape` of src/yolo-segment/common.ts: an explicit `mask_shape`
wins; otherwise the mask shape is `input_shape / 4`. -/
def getMaskShape : MaskShapeArg → ImageSize
  | .mask_shape s => s
  | .input_shape s => { width := s.width / 4, height := s.height / 4 }

/-- `DecodeSegmentArgs` of src/yolo-segment/common.ts. -/
structure DecodeSegmentArgs where
  num_classes : Nat
  num_channels : Option Nat
  output_boxes : List (List (List ℚ))
  output_masks : List (List (List (List ℚ)))
  maxOutputSize : Option Nat
  iouThreshold : Option ℚ
  scoreThreshold : Option ℚ
  shape : MaskShapeArg

/-- Materialisation of one segment box: the box part as in `decodeBox`,
plus the `num_channels`-long coefficient vector read from the channels
after the class scores. -/
def mkSegmentBox (num_classes num_channels : Nat) (batch_boxes : List (List ℚ))
    (cls_indices : List Nat) (box_index : Nat) : BoundingBoxWithMaskCoefficients :=
  { toBoundingBox := mkBoundingBox batch_boxes num_classes cls_indices box_index
    mask_coefficients :=
      (List.range num_channels).map fun i =>
        get2 batch_boxes (4 + num_classes + i) box_index }

/-- Loop body of `decodeSegment` for one batch of the box tensor. -/
def decodeSegmentBatch (nms : NmsFn) (num_classes num_channels num_boxes : Nat)
    (maxOutputSize : Option Nat) (iouThreshold scoreThreshold : Option ℚ)
    (batch_boxes : List (List ℚ)) : List BoundingBoxWithMaskCoefficients :=
  let boxes := (List.range num_boxes).map (cornerBox batch_boxes)
  let cls_scores := (List.range num_boxes).map fun b => (bestClass batch_boxes num_classes b).1
  let cls_indices := (List.range num_boxes).map fun b => (bestClass batch_boxes num_classes b).2
  (selectBoxIndices nms maxOutputSize iouThreshold scoreThreshold boxes cls_scores num_boxes).map
    (mkSegmentBox num_classes num_channels batch_boxes cls_indices)

/-- `decodeSegment` of src/yolo-segment/common.ts.  Validates the first
batch of the box tensor (zero channels short-circuit to an empty result),
the first pixel column of the mask tensor, and that both tensors have the
same batch count; then decodes every batch and pairs its surviving boxes
with its raw prototype mask tensor. -/
def decodeSegment (nms : NmsFn) (args : DecodeSegmentArgs) :
    Except String (List SegmentBatch) :=
  let num_channels := args.num_channels.getD 32
  let mask_shape := getMaskShape args.shape
  match args.output_boxes with
  | [] => .error "TypeError: batches_boxes[0] is undefined"
  | b0 :: _ =>
    if b0.length = 0 then .ok []
    else if b0.length ≠ 4 + args.num_classes + num_channels then
      .error ("boxes_data[batch].length must be "
        ++ toString (4 + args.num_classes + num_channels))
    else
      match args.output_masks with
      | [] => .error "TypeError: batches_masks[0] is undefined"
      | m0 :: _ =>
        if (m0.length : ℚ) ≠ mask_shape.height then
          .error ("masks_data[batch].length must be " ++ toString mask_shape.height)
        else
          match m0 with
          | [] => .error "TypeError: batches_masks[0][0] is undefined"
          | r0 :: _ =>
            if (r0.length : ℚ) ≠ mask_shape.width then
              .error ("masks_data[batch][y].length must be " ++ toString mask_shape.width)
            else
              match r0 with
              | [] => .error "TypeError: batches_masks[0][0][0] is undefined"
              | c0 :: _ =>
                if c0.length ≠ num_channels then
                  .error ("masks_data[batch][y][x].length must be " ++ toString num_channels)
                else if args.output_boxes.length ≠ args.output_masks.length then
                  .error "boxes_data and masks_data must have the same length"
                else
                  .ok ((List.range args.output_boxes.length).map fun bi =>
                    { bounding_boxes :=
                        decodeSegmentBatch nms args.num_classes num_channels
                          ((b0.headD []).length)
                          args.maxOutputSize args.iouThreshold args.scoreThreshold
                          (args.output_boxes.getD bi [])
                      masks := args.output_masks.getD bi [] })

/-- Loop body of `decodeSegmentSync`, duplicated from `decodeSegment` in
the source. -/
def decodeSegmentBatchSync (nms : NmsFn) (num_classes num_channels num_boxes : Nat)
    (maxOutputSize : Option Nat) (iouThreshold scoreThreshold : Option ℚ)
    (batch_boxes : List (List ℚ)) : List BoundingBoxWithMaskCoefficients :=
  let boxes := (List.range num_boxes).map (cornerBox batch_boxes)
  let cls_scores := (List.range num_boxes).map fun b => (bestClass batch_boxes num_classes b).1
  let cls_indices := (List.range num_boxes).map fun b => (bestClass batch_boxes num_classes b).2
  (selectBoxIndices nms maxOutputSize iouThreshold scoreThreshold boxes cls_scores num_boxes).map
    (mkSegmentBox num_classes num_channels batch_boxes cls_indices)

/-- `decodeSegmentSync` of src/yolo-segment/common.ts, a full textual
duplicate of `decodeSegment` in the source. -/
def decodeSegmentSync (nms : NmsFn) (args : DecodeSegmentArgs) :
    Except String (List SegmentBatch) :=
  let num_channels := args.num_channels.getD 32
  let mask_shape := getMaskShape args.shape
  match args.output_boxes with
  | [] => .error "TypeError: batches_boxes[0] is undefined"
  | b0 :: _ =>
    if b0.length = 0 then .ok []
    else if b0.length ≠ 4 + args.num_classes + num_channels then
      .error ("boxes_data[batch].length must be "
        ++ toString (4 + args.num_classes + num_channels))
    else
      match args.output_masks with
      | [] => .error "TypeError: batches_masks[0] is undefined"
      | m0 :: _ =>
        if (m0.length : ℚ) ≠ mask_shape.height then
          .error ("masks_data[batch].length must be " ++ toString mask_shape.height)
        else
          match m0 with
          | [] => .error "TypeError: batches_masks[0][0] is undefined"
          | r0 :: _ =>
            if (r0.length : ℚ) ≠ mask_shape.width then
              .error ("masks_data[batch][y].length must be " ++ toString mask_shape.width)
            else
              match r0 with
              | [] => .error "TypeError: batches_masks[0][0][0] is undefined"
              | c0 :: _ =>
                if c0.length ≠ num_channels then
                  .error ("masks_data[batch][y][x].length must be " ++ toString num_channels)
                else if args.output_boxes.length ≠ args.output_masks.length then
                  .error "boxes_data and masks_data must have the same length"
                else
                  .ok ((List.range args.output_boxes.length).map fun bi =>
                    { bounding_boxes :=
                        decodeSegmentBatchSync nms args.num_classes num_channels
                          ((b0.headD []).length)
                          args.maxOutputSize args.iouThreshold args.scoreThreshold
                          (args.output_boxes.getD bi [])
                      masks := args.output_masks.getD bi [] })

/-- `DecodeClassifyArgs` of src/yolo-classify/common.ts. -/
structure DecodeClassifyArgs where
  num_classes : Nat
  output : List (List ℚ)

/-- `decodeClassify` of src/yolo-classify/common.ts: per-batch linear
arg-max over the confidence vector, first index winning exact ties. -/
def decodeClassify (args : DecodeClassifyArgs) : Except String (List ImageResult) :=
  match args.output with
  | [] => .error "TypeError: batches[0] is undefined"
  | batch0 :: _ =>
    if batch0.length = 0 then .ok []
    else if batch0.length ≠ args.num_classes then
      .error ("data[batch].length must be " ++ toString args.num_classes)
    else
      .ok (args.output.map fun all_confidences =>
        let best :=
          (List.range (args.num_classes - 1)).foldl
            (fun acc k =>
              let i := k + 1
              let confidence := all_confidences.getD i 0
              if acc.1 < confidence then (confidence, i) else acc)
            (all_confidences.getD 0 0, 0)
        { class_index := best.2
          confidence := best.1
          all_confidences := all_confidences })

/-- Raw per-pixel linear combination of `combineMask`
(src/yolo-segment/common.ts): the accumulator value
`Σ_i coefficient[i] * masks[h][w][i]` before the sigmoid is applied, and
the coefficient-count check against `masks[0][0].length`. -/
def combineMaskRaw (mask_coefficients : List ℚ) (masks : List (List (List ℚ))) :
    Except String (List (List ℚ)) :=
  match masks with
  | [] => .error "TypeError: masks[0] is undefined"
  | row0 :: _ =>
    match row0 with
    | [] => .error "TypeError: masks[0][0] is undefined"
    | cell0 :: _ =>
      if cell0.length ≠ mask_coefficients.length then
        .error ("expect " ++ toString cell0.length ++ " mask coefficients, but got "
          ++ toString mask_coefficients.length)
      else
        .ok ((List.range masks.length).map fun h =>
          (List.range row0.length).map fun w =>
            (List.range cell0.length).foldl
              (fun acc i => acc + mask_coefficients.getD i 0 * get3 masks h w i) 0)

/-- The logistic sigmoid used by `combineMask`. -/
noncomputable def sigmoid (x : ℝ) : ℝ := 1 / (1 + Real.exp (-x))

/-- `combineMask` of src/yolo-segment/common.ts.  The source applies the
sigmoid to each pixel's accumulator inside the loop; here the exact
real-valued sigmoid is applied to the (rational) accumulators computed by
`combineMaskRaw`. -/
noncomputable def combineMask (mask_coefficients : List ℚ)
    (masks : List (List (List ℚ))) : Except String (List (List ℝ)) :=
  (combineMaskRaw mask_coefficients masks).map fun m =>
    m.map fun row => row.map fun acc => sigmoid (Rat.cast acc)

/-- `true` exactly when an `Except` value is `ok` (the call did not
throw). -/
def exceptIsOk {ε α : Type _} : Except ε α → Bool
  | .ok _ => true
  | .error _ => false

/-- `v` is the maximum of the list `l` (and occurs in it). -/
def isMaxOf (v : ℚ) (l : List ℚ) : Prop :=
  v ∈ l ∧ ∀ c ∈ l, c ≤ v

instance (v : ℚ) (l : List ℚ) : Decidable (isMaxOf v l) := by
  unfold isMaxOf; infer_instance

/-- `i` is the arg-max of `l` with the first index winning exact ties. -/
def isFirstArgmax (l : List ℚ) (i : Nat) : Prop :=
  i < l.length ∧ (∀ j < l.length, l.getD j 0 ≤ l.getD i 0) ∧ ∀ j < i, l.getD j 0 < l.getD i 0

instance (l : List ℚ) (i : Nat) : Decidable (isFirstArgmax l i) := by
  unfold isFirstArgmax; infer_instance

/-- The detection a NMS-free decode materialises for slot `box_index`:
geometry, best class and confidences read directly from the channels of
that slot. -/
def slotBox (num_classes : Nat) (batch : List (List ℚ)) (box_index : Nat) : BoundingBox :=
  { x := get2 batch 0 box_index
    y := get2 batch 1 box_index
    width := get2 batch 2 box_index
    height := get2 batch 3 box_index
    class_index := (bestClass batch num_classes box_index).2
    confidence := get2 batch (4 + (bestClass batch num_classes box_index).2) box_index
    all_confidences := (List.range num_classes).map fun i => get2 batch (4 + i) box_index }

/-- The pose detection a NMS-free `decodePose` (src/yolo-pose/common.ts)
materialises for slot `box_index`. -/
def slotPoseBox (num_classes num_keypoints : Nat) (batch : List (List ℚ))
    (box_index : Nat) : BoundingBoxWithKeypoints :=
  { x := get2 batch 0 box_index
    y := get2 batch 1 box_index
    width := get2 batch 2 box_index
    height := get2 batch 3 box_index
    class_index := (bestClassPoseLegacy batch num_classes box_index).2
    confidence := get2 batch (4 + (bestClassPoseLegacy batch num_classes box_index).2) box_index
    all_confidences := (List.range num_classes).map fun i => get2 batch (4 + i) box_index
    keypoints := (kpWalk 3 (4 + num_classes + num_keypoints * 3) (4 + num_classes)).map
      fun offset =>
        { x := get2 batch offset box_index
          y := get2 batch (offset + 1) box_index
          visibility := get2 batch (offset + 2) box_index } }

/-- The pose detection a NMS-free revised decode materialises for slot
`box_index`. -/
def slotPoseVBox (visibility : Bool) (num_classes num_keypoints : Nat)
    (batch : List (List ℚ)) (box_index : Nat) : BoundingBoxWithKeypoints :=
  { x := get2 batch 0 box_index
    y := get2 batch 1 box_index
    width := get2 batch 2 box_index
    height := get2 batch 3 box_index
    class_index := (bestClass batch num_classes box_index).2
    confidence := get2 batch (4 + (bestClass batch num_classes box_index).2) box_index
    all_confidences := (List.range num_classes).map fun i => get2 batch (4 + i) box_index
    keypoints := poseKeypoints visibility
      (4 + num_classes + num_keypoints * (if visibility then 3 else 2))
      num_classes batch box_index }

/-- The segment detection a NMS-free `decodeSegment` materialises for slot
`box_index`. -/
def slotSegmentBox (num_classes num_channels : Nat) (batch_boxes : List (List ℚ))
    (box_index : Nat) : BoundingBoxWithMaskCoefficients :=
  { x := get2 batch_boxes 0 box_index
    y := get2 batch_boxes 1 box_index
    width := get2 batch_boxes 2 box_index
    height := get2 batch_boxes 3 box_index
    class_index := (bestClass batch_boxes num_classes box_index).2
    confidence := get2 batch_boxes (4 + (bestClass batch_boxes num_classes box_index).2) box_index
    all_confidences := (List.range num_classes).map fun i => get2 batch_boxes (4 + i) box_index
    mask_coefficients := (List.range num_channels).map fun i =>
      get2 batch_boxes (4 + num_classes + i) box_index }

deriving instance DecidableEq for Except

/-- Reading position `i < n` of `(List.range n).map f` gives `f i`. -/
theorem getD_range_map {α : Type _} {n i : Nat} (h : i < n) (f : Nat → α) (d : α) :
    ((List.range n).map f).getD i d = f i := by
  rw [List.getD_eq_getElem?_getD, List.getElem?_map, List.getElem?_range h]
  rfl

/-- Folding addition of `f` over a list from `a` is `a` plus the sum of the
mapped list. -/
theorem foldl_add_sum (f : Nat → ℚ) : ∀ (l : List Nat) (a : ℚ),
    l.foldl (fun acc i => acc + f i) a = a + (l.map f).sum := by
  intro l
  induction l with
  | nil => intro a; simp
  | cons x xs ih => intro a; simp only [List.foldl_cons, List.map_cons, List.sum_cons, ih]; ring

/-- The stride-3 keypoint walk over a region of `K * 3` channels starting
at `s` visits exactly the `K` offsets `s, s + 3, …, s + (K-1) * 3`. -/
theorem kpWalkAux_stride3 (K : Nat) : ∀ fuel s, K ≤ fuel →
    kpWalkAux fuel 3 (s + K * 3) s = (List.range K).map fun j => s + j * 3 := by
  induction K with
  | zero =>
    intro fuel s _
    cases fuel <;> simp [kpWalkAux]
  | succ K ih =>
    intro fuel s hf
    match fuel, hf with
    | fuel + 1, hf =>
      have hcond : s + 2 < s + (K + 1) * 3 := by omega
      have hlen : s + (K + 1) * 3 = (s + 3) + K * 3 := by ring
      rw [kpWalkAux, if_pos hcond, hlen, ih fuel (s + 3) (by omega)]
      rw [List.range_succ_eq_map, List.map_cons, List.map_map]
      refine congrArg₂ _ (by omega) ?_
      apply List.map_congr_left
      intro j _
      simp only [Function.comp]
      omega

/-- The stride-2 keypoint walk over a region of `K * 2 + 2` channels
starting at `s` visits exactly the `K` offsets `s, s + 2, …,
s + (K-1) * 2`: the loop guard `offset + 2 < length` stops one keypoint
short of the end of the region. -/
theorem kpWalkAux_stride2 (K : Nat) : ∀ fuel s, K ≤ fuel →
    kpWalkAux fuel 2 (s + K * 2 + 2) s = (List.range K).map fun j => s + j * 2 := by
  induction K with
  | zero =>
    intro fuel s _
    cases fuel <;> simp [kpWalkAux]
  | succ K ih =>
    intro fuel s hf
    match fuel, hf with
    | fuel + 1, hf =>
      have hcond : s + 2 < s + (K + 1) * 2 + 2 := by omega
      have hlen : s + (K + 1) * 2 + 2 = (s + 2) + K * 2 + 2 := by ring
      rw [kpWalkAux, if_pos hcond, hlen, ih fuel (s + 2) (by omega)]
      rw [List.range_succ_eq_map, List.map_cons, List.map_map]
      refine congrArg₂ _ (by omega) ?_
      apply List.map_congr_left
      intro j _
      simp only [Function.comp]
      omega

/-- Unfolding equation of `decodeBox` on a non-empty batch list. -/
theorem decodeBox_cons (nms : NmsFn) (C : Nat) (mos : Option Nat) (iou st : Option ℚ)
    (b0 : List (List ℚ)) (rest : List (List (List ℚ))) :
    decodeBox nms { num_classes := C, output := b0 :: rest, maxOutputSize := mos,
                    iouThreshold := iou, scoreThreshold := st }
      = if b0.length = 0 then .ok []
        else if b0.length ≠ 4 + C then
          .error ("data[batch].length must be " ++ toString (4 + C))
        else .ok ((b0 :: rest).map
          (decodeBoxBatch nms C (b0.headD []).length mos iou st)) := rfl

/-- Unfolding equation of `decodePose` on a non-empty batch list. -/
theorem decodePose_cons (nms : NmsFn) (C K : Nat) (mos : Option Nat) (iou st : Option ℚ)
    (b0 : List (List ℚ)) (rest : List (List (List ℚ))) :
    decodePose nms { num_classes := C, num_keypoints := K, output := b0 :: rest,
                     maxOutputSize := mos, iouThreshold := iou, scoreThreshold := st }
      = if b0.length = 0 then .ok []
        else if b0.length ≠ 4 + C + K * 3 then
          .error ("data[0].length must be " ++ toString (4 + C + K * 3))
        else .ok ((b0 :: rest).map
          (decodePoseBatch nms C (4 + C + K * 3) (b0.headD []).length mos iou st)) := rfl

/-- Unfolding equation of the revised `decodePose` on a non-empty batch
list. -/
theorem decodePoseV_cons (nms : NmsFn) (C K : Nat) (vis : Bool) (mos : Option Nat)
    (iou st : Option ℚ) (b0 : List (List ℚ)) (rest : List (List (List ℚ))) :
    decodePoseV nms { num_classes := C, num_keypoints := K, visibility := vis,
                      output := b0 :: rest, maxOutputSize := mos, iouThreshold := iou,
                      scoreThreshold := st }
      = if b0.length = 0 then .ok []
        else if b0.length ≠ 4 + C + K * (if vis then 3 else 2) then
          .error ("data[batch].length must be "
            ++ toString (4 + C + K * (if vis then 3 else 2)))
        else .ok ((b0 :: rest).map
          (decodePoseVBatch nms vis C (4 + C + K * (if vis then 3 else 2))
            (b0.headD []).length mos iou st)) := rfl

/-- Claim C1: every produced result is claimed to have `confidence` equal
to the maximum of `all_confidences` and `class_index` equal to the first
arg-max.  The pose decoder of src/yolo-pose/common.ts violates this: its
class scan reads `batch[4 + i][i]` instead of `batch[4 + i][box_index]`,
so on the input below the slot-0 box reports class 1 with confidence 1
although its own confidence vector is `[10, 1]` (maximum 10, first
arg-max 0). -/
theorem decodePose_class_selection_contradicts_argmax :
    (decodePose trivialNms
        { num_classes := 2, num_keypoints := 0,
          output := [[[0, 0], [0, 0], [2, 2], [2, 2], [10, 0], [1, 99]]],
          maxOutputSize := none, iouThreshold := none, scoreThreshold := none }).map
        (fun rs => rs.map fun bs => bs.map fun b =>
          (b.class_index, b.confidence, b.all_confidences))
      = .ok [[(1, 1, [10, 1]), (1, 99, [0, 99])]]
    ∧ ¬ isFirstArgmax [(10 : ℚ), 1] 1 ∧ ¬ isMaxOf (1 : ℚ) [10, 1] := by
  decide

/-- Claim C2, counterexample: the claim says the channel count of every
batch must match the expected layout length or the whole call fails.  Here
the second batch has 7 channels while `4 + num_classes = 5`, yet the call
succeeds: only the first batch is validated. -/
theorem decodeBox_mismatched_second_batch_accepted :
    exceptIsOk (decodeBox trivialNms
        { num_classes := 1,
          output := [[[1], [2], [4], [4], [9]], [[1], [1], [2], [2], [7], [0], [0]]],
          maxOutputSize := none, iouThreshold := none, scoreThreshold := none }) = true
    ∧ [[(1 : ℚ)], [1], [2], [2], [7], [0], [0]].length ≠ 4 + 1 := by
  decide

/-- Claim C2 (amended): only the first batch's channel count is validated.
A nonzero mismatch there fails the whole call with the structural error
(before any per-candidate work, producing no result); the channel counts
of later batches are never compared against the layout, so when the first
batch matches and every later batch carries at least the expected channel
rows (ruling out the reads through a missing row that throw a read-time
TypeError, which a total embedding cannot reproduce), the whole call
succeeds — even when later batches have extra channels. -/
theorem decode_first_batch_only_validation (nms nms2 : NmsFn) (C K : Nat)
    (mos mos2 : Option Nat) (iou st iou2 st2 : Option ℚ)
    (b0 p0 : List (List ℚ)) (brest prest : List (List (List ℚ))) :
    (b0.length ≠ 0 → b0.length ≠ 4 + C →
      decodeBox nms { num_classes := C, output := b0 :: brest, maxOutputSize := mos,
                      iouThreshold := iou, scoreThreshold := st }
        = .error ("data[batch].length must be " ++ toString (4 + C)))
    ∧ (b0.length = 4 + C → (∀ b ∈ brest, 4 + C ≤ b.length) →
      exceptIsOk (decodeBox nms { num_classes := C, output := b0 :: brest,
                                  maxOutputSize := mos, iouThreshold := iou,
                                  scoreThreshold := st }) = true)
    ∧ (p0.length ≠ 0 → p0.length ≠ 4 + C + K * 3 →
      decodePose nms2 { num_classes := C, num_keypoints := K, output := p0 :: prest,
                        maxOutputSize := mos2, iouThreshold := iou2, scoreThreshold := st2 }
        = .error ("data[0].length must be " ++ toString (4 + C + K * 3)))
    ∧ (p0.length = 4 + C + K * 3 → (∀ b ∈ prest, 4 + C + K * 3 ≤ b.length) →
      exceptIsOk (decodePose nms2 { num_classes := C, num_keypoints := K,
                                    output := p0 :: prest, maxOutputSize := mos2,
                                    iouThreshold := iou2, scoreThreshold := st2 }) = true) := by
  refine ⟨?_, ?_, ?_, ?_⟩
  · intro h1 h2
    rw [decodeBox_cons, if_neg h1, if_pos h2]
  · intro h1 _hrows
    rw [decodeBox_cons, if_neg (by omega), if_neg (by omega)]
    rfl
  · intro h1 h2
    rw [decodePose_cons, if_neg h1, if_pos h2]
  · intro h1 _hrows
    rw [decodePose_cons, if_neg (by omega), if_neg (by omega)]
    rfl

/-- Claim C2, witness: a 3-channel first batch fails both decoders with
the structural error; a matching first batch makes the call succeed. -/
theorem decode_first_batch_only_validation_case :
    decodeBox trivialNms { num_classes := 1, output := [[[1], [1], [1]]],
                           maxOutputSize := none, iouThreshold := none,
                           scoreThreshold := none }
      = .error "data[batch].length must be 5"
    ∧ exceptIsOk (decodeBox trivialNms
        { num_classes := 1,
          output := [[[1], [2], [4], [4], [9]], [[1], [1], [2], [2], [7], [0], [0]]],
          maxOutputSize := none, iouThreshold := none, scoreThreshold := none }) = true
    ∧ decodePose trivialNms { num_classes := 1, num_keypoints := 1,
                              output := [[[1], [1], [1]]], maxOutputSize := none,
                              iouThreshold := none, scoreThreshold := none }
      = .error "data[0].length must be 8"
    ∧ exceptIsOk (decodePose trivialNms
        { num_classes := 1, num_keypoints := 0,
          output := [[[1], [2], [3], [4], [5]]],
          maxOutputSize := none, iouThreshold := none, scoreThreshold := none }) = true := by
  refine ⟨?_, ?_, ?_, ?_⟩
  · exact (decode_first_batch_only_validation trivialNms trivialNms 1 1 none none none none
      none none [[1], [1], [1]] [[1], [1], [1]] [] []).1 (by decide) (by decide)
  · exact (decode_first_batch_only_validation trivialNms trivialNms 1 1 none none none none
      none none [[1], [2], [4], [4], [9]] [[1], [2], [4], [4], [9]]
      [[[1], [1], [2], [2], [7], [0], [0]]] []).2.1 (by decide) (by decide)
  · exact (decode_first_batch_only_validation trivialNms trivialNms 1 1 none none none none
      none none [[1], [1], [1]] [[1], [1], [1]] [] []).2.2.1 (by decide) (by decide)
  · exact (decode_first_batch_only_validation trivialNms trivialNms 1 0 none none none none
      none none [[1], [2], [3], [4], [5]] [[1], [2], [3], [4], [5]] [] []).2.2.2 (by decide)
      (by decide)

/-- Claim C4: given NMS primitives that return the same indices for the
same arguments, the blocking variants return output identical to the
suspending variants on every input, for all four NMS-capable decoders. -/
theorem decode_sync_variants_agree (nmsA nmsS : NmsFn)
    (h : ∀ boxes scores k iou st, nmsA boxes scores k iou st = nmsS boxes scores k iou st)
    (bargs : DecodeBoxArgs) (pargs : DecodePoseArgs) (vargs : DecodePoseVArgs)
    (sargs : DecodeSegmentArgs) :
    decodeBox nmsA bargs = decodeBoxSync nmsS bargs
    ∧ decodePose nmsA pargs = decodePoseSync nmsS pargs
    ∧ decodePoseV nmsA vargs = decodePoseVSync nmsS vargs
    ∧ decodeSegment nmsA sargs = decodeSegmentSync nmsS sargs := by
  have hn : nmsA = nmsS := by
    funext a b c d e
    exact h a b c d e
  subst hn
  exact ⟨rfl, rfl, rfl, rfl⟩

/-- Claim C4, witness: the agreement at a concrete input for each decoder
pair. -/
theorem decode_sync_variants_agree_case :
    decodeBox trivialNms { num_classes := 1, output := [[[1], [2], [4], [4], [9]]],
                           maxOutputSize := some 1, iouThreshold := none,
                           scoreThreshold := none }
      = decodeBoxSync trivialNms { num_classes := 1, output := [[[1], [2], [4], [4], [9]]],
                                   maxOutputSize := some 1, iouThreshold := none,
                                   scoreThreshold := none }
    ∧ decodePose trivialNms { num_classes := 1, num_keypoints := 1,
                              output := [[[1], [2], [4], [4], [9], [5], [6], [7]]],
                              maxOutputSize := none, iouThreshold := none,
                              scoreThreshold := none }
      = decodePoseSync trivialNms { num_classes := 1, num_keypoints := 1,
                                    output := [[[1], [2], [4], [4], [9], [5], [6], [7]]],
                                    maxOutputSize := none, iouThreshold := none,
                                    scoreThreshold := none }
    ∧ decodePoseV trivialNms { num_classes := 1, num_keypoints := 1, visibility := false,
                               output := [[[1], [2], [4], [4], [9], [5], [6]]],
                               maxOutputSize := none, iouThreshold := none,
                               scoreThreshold := none }
      = decodePoseVSync trivialNms { num_classes := 1, num_keypoints := 1, visibility := false,
                                     output := [[[1], [2], [4], [4], [9], [5], [6]]],
                                     maxOutputSize := none, iouThreshold := none,
                                     scoreThreshold := none }
    ∧ decodeSegment trivialNms { num_classes := 1, num_channels := some 1,
                                 output_boxes := [[[1], [2], [4], [4], [9], [3]]],
                                 output_masks := [[[[2]]]], maxOutputSize := none,
                                 iouThreshold := none, scoreThreshold := none,
                                 shape := .mask_shape { width := 1, height := 1 } }
      = decodeSegmentSync trivialNms { num_classes := 1, num_channels := some 1,
                                       output_boxes := [[[1], [2], [4], [4], [9], [3]]],
                                       output_masks := [[[[2]]]], maxOutputSize := none,
                                       iouThreshold := none, scoreThreshold := none,
                                       shape := .mask_shape { width := 1, height := 1 } } :=
  decode_sync_variants_agree trivialNms trivialNms (fun _ _ _ _ _ => rfl) _ _ _ _

/-- Claim C6: an input whose first batch reports zero channels makes every
decoder return an empty overall result without raising an error. -/
theorem decode_zero_channel_first_batch_empty_result (nms : NmsFn) (C K : Nat) (vis : Bool)
    (M mos : Option Nat) (iou st : Option ℚ) (rest : List (List (List ℚ)))
    (masks : List (List (List (List ℚ)))) (shape : MaskShapeArg) (crest : List (List ℚ)) :
    decodeBox nms { num_classes := C, output := [] :: rest, maxOutputSize := mos,
                    iouThreshold := iou, scoreThreshold := st } = .ok []
    ∧ decodePose nms { num_classes := C, num_keypoints := K, output := [] :: rest,
                       maxOutputSize := mos, iouThreshold := iou, scoreThreshold := st } = .ok []
    ∧ decodePoseV nms { num_classes := C, num_keypoints := K, visibility := vis,
                        output := [] :: rest, maxOutputSize := mos, iouThreshold := iou,
                        scoreThreshold := st } = .ok []
    ∧ decodeSegment nms { num_classes := C, num_channels := M, output_boxes := [] :: rest,
                          output_masks := masks, maxOutputSize := mos, iouThreshold := iou,
                          scoreThreshold := st, shape := shape } = .ok []
    ∧ decodeClassify { num_classes := C, output := [] :: crest } = .ok [] :=
  ⟨rfl, rfl, rfl, rfl, rfl⟩

/-- Claim C8: every valid pose decode is claimed to return exactly
`num_keypoints` keypoints per box.  With `visibility := false` the walk
guard `offset + 2 < length` drops the final keypoint: a 7-channel layout
(`4 + 1 + 1 * 2`) with one keypoint yields a box with 0 keypoints, while
the same model with a visibility channel (8 channels) yields 1. -/
theorem decodePoseV_stride2_drops_last_keypoint :
    (decodePoseV trivialNms
        { num_classes := 1, num_keypoints := 1, visibility := false,
          output := [[[1], [2], [4], [4], [9], [5], [6]]],
          maxOutputSize := none, iouThreshold := none, scoreThreshold := none }).map
        (fun rs => rs.map fun bs => bs.map fun b => b.keypoints.length)
      = .ok [[0]]
    ∧ (decodePoseV trivialNms
        { num_classes := 1, num_keypoints := 1, visibility := true,
          output := [[[1], [2], [4], [4], [9], [5], [6], [7]]],
          maxOutputSize := none, iouThreshold := none, scoreThreshold := none }).map
        (fun rs => rs.map fun bs => bs.map fun b => b.keypoints.length)
      = .ok [[1]] := by
  decide

/-- Claim C10: passing `maxOutputSize = 0` is the same as omitting it for
every NMS-capable decoder — the JavaScript truthiness test on the option
skips NMS and returns every slot index in order. -/
theorem maxOutputSize_zero_behaves_as_omitted (nms : NmsFn) (bargs : DecodeBoxArgs)
    (pargs : DecodePoseArgs) (vargs : DecodePoseVArgs) (sargs : DecodeSegmentArgs) :
    decodeBox nms { bargs with maxOutputSize := some 0 }
      = decodeBox nms { bargs with maxOutputSize := none }
    ∧ decodePose nms { pargs with maxOutputSize := some 0 }
      = decodePose nms { pargs with maxOutputSize := none }
    ∧ decodePoseV nms { vargs with maxOutputSize := some 0 }
      = decodePoseV nms { vargs with maxOutputSize := none }
    ∧ decodeSegment nms { sargs with maxOutputSize := some 0 }
      = decodeSegment nms { sargs with maxOutputSize := none } :=
  ⟨rfl, rfl, rfl, rfl⟩

/-- A keypoint walk whose guard fails at the start visits no offset. -/
theorem kpWalkAux_stop (fuel stride len s : Nat) (h : ¬ s + 2 < len) :
    kpWalkAux fuel stride len s = [] := by
  cases fuel
  · rfl
  · rw [kpWalkAux, if_neg h]

/-- Claim C3: the revised pose decoder accepts a channel layout without a
visibility channel (total channel count `4 + num_classes +
num_keypoints * 2`); the keypoint region is then walked with stride 2 and
every extracted keypoint gets visibility 1, while a layout with a
visibility channel is walked with stride 3 and the visibility is read from
the tensor. -/
theorem decodePoseV_layout_without_visibility (nms : NmsFn) (C K : Nat) (mos : Option Nat)
    (iou st : Option ℚ) (b0 : List (List ℚ)) (rest : List (List (List ℚ)))
    (hlen : b0.length = 4 + C + K * 2) :
    exceptIsOk (decodePoseV nms { num_classes := C, num_keypoints := K, visibility := false,
                                  output := b0 :: rest, maxOutputSize := mos,
                                  iouThreshold := iou, scoreThreshold := st }) = true
    ∧ (∀ rs, decodePoseV nms { num_classes := C, num_keypoints := K, visibility := false,
                               output := b0 :: rest, maxOutputSize := mos,
                               iouThreshold := iou, scoreThreshold := st } = .ok rs →
        ∀ bs ∈ rs, ∀ box ∈ bs, ∀ kp ∈ box.keypoints, kp.visibility = 1)
    ∧ (∀ (batch : List (List ℚ)) (i : Nat),
        poseKeypoints false (4 + C + K * 2) C batch i
          = (List.range (K - 1)).map fun j =>
              { x := get2 batch (4 + C + j * 2) i
                y := get2 batch (4 + C + j * 2 + 1) i
                visibility := 1 })
    ∧ (∀ (batch : List (List ℚ)) (i : Nat),
        poseKeypoints true (4 + C + K * 3) C batch i
          = (List.range K).map fun j =>
              { x := get2 batch (4 + C + j * 3) i
                y := get2 batch (4 + C + j * 3 + 1) i
                visibility := get2 batch (4 + C + j * 3 + 2) i }) := by
  have hif : (if false then 3 else 2) = 2 := rfl
  refine ⟨?_, ?_, ?_, ?_⟩
  · rw [decodePoseV_cons, hif, if_neg (by omega), if_neg (by omega)]
    rfl
  · intro rs hrs bs hbs box hbox kp hkp
    rw [decodePoseV_cons, hif, if_neg (by omega), if_neg (by omega)] at hrs
    injection hrs with hrs
    subst hrs
    rcases List.mem_map.mp hbs with ⟨batch, _, rfl⟩
    simp only [decodePoseVBatch] at hbox
    rcases List.mem_map.mp hbox with ⟨i, _, rfl⟩
    simp only [mkPoseVBox, poseKeypoints] at hkp
    rcases List.mem_map.mp hkp with ⟨offset, _, rfl⟩
    rfl
  · intro batch i
    by_cases hK : K = 0
    · subst hK
      have h0 : kpWalkAux (4 + C + 0 * 2) (if false then 3 else 2) (4 + C + 0 * 2) (4 + C)
          = [] := kpWalkAux_stop _ _ _ _ (by omega)
      simp only [poseKeypoints, kpWalk, h0, List.map_nil]
      simp
    · obtain ⟨L, rfl⟩ : ∃ L, K = L + 1 := ⟨K - 1, by omega⟩
      show (kpWalkAux (4 + C + (L + 1) * 2) 2 (4 + C + (L + 1) * 2) (4 + C)).map
          (fun offset => ({ x := get2 batch offset i, y := get2 batch (offset + 1) i,
                            visibility := (1 : ℚ) } : Keypoint)) = _
      have hlen2 : 4 + C + (L + 1) * 2 = 4 + C + L * 2 + 2 := by ring
      rw [hlen2, kpWalkAux_stride2 L _ _ (by omega), List.map_map]
      simp only [Nat.add_sub_cancel]
      apply List.map_congr_left
      intro j _
      rfl
  · intro batch i
    show (kpWalkAux (4 + C + K * 3) 3 (4 + C + K * 3) (4 + C)).map
        (fun offset => ({ x := get2 batch offset i, y := get2 batch (offset + 1) i,
                          visibility := get2 batch (offset + 2) i } : Keypoint)) = _
    rw [kpWalkAux_stride3 K _ _ (by omega), List.map_map]
    apply List.map_congr_left
    intro j _
    rfl

/-- Claim C3, witness: a `4 + 1 + 2 * 2`-channel no-visibility layout is
accepted; its stride-2 keypoints carry visibility 1, and a stride-3 layout
reads the visibility from the tensor. -/
theorem decodePoseV_layout_without_visibility_case :
    exceptIsOk (decodePoseV trivialNms
        { num_classes := 1, num_keypoints := 2, visibility := false,
          output := [[[1], [2], [2], [2], [9], [7], [8], [5], [6]]],
          maxOutputSize := none, iouThreshold := none, scoreThreshold := none }) = true
    ∧ poseKeypoints false (4 + 1 + 2 * 2) 1 [[1], [2], [2], [2], [9], [7], [8], [5], [6]] 0
      = [{ x := 7, y := 8, visibility := 1 }]
    ∧ poseKeypoints true (4 + 1 + 1 * 3) 1 [[1], [2], [2], [2], [9], [7], [8], [5]] 0
      = [{ x := 7, y := 8, visibility := 5 }] := by
  have h := decodePoseV_layout_without_visibility trivialNms 1 2 none none none
    [[1], [2], [2], [2], [9], [7], [8], [5], [6]] [] (by decide)
  have h2 := decodePoseV_layout_without_visibility trivialNms 1 1 none none none
    [[1], [2], [2], [2], [9], [7], [8]] [] (by decide)
  refine ⟨h.1, ?_, ?_⟩
  · rw [h.2.2.1 [[1], [2], [2], [2], [9], [7], [8], [5], [6]] 0]
    decide
  · rw [h2.2.2.2 [[1], [2], [2], [2], [9], [7], [8], [5]] 0]
    decide

/-- Unfolding equation of `decodeSegment` on constructor-shaped tensors. -/
theorem decodeSegment_cons (nms : NmsFn) (C : Nat) (nc mos : Option Nat)
    (iou st : Option ℚ) (shape : MaskShapeArg) (s0 : List (List ℚ))
    (srest : List (List (List ℚ))) (c0 : List ℚ) (crest : List (List ℚ))
    (rrest : List (List (List ℚ))) (mrest : List (List (List (List ℚ)))) :
    decodeSegment nms { num_classes := C, num_channels := nc, output_boxes := s0 :: srest,
                        output_masks := ((c0 :: crest) :: rrest) :: mrest,
                        maxOutputSize := mos, iouThreshold := iou, scoreThreshold := st,
                        shape := shape }
      = (if s0.length = 0 then .ok []
         else if s0.length ≠ 4 + C + nc.getD 32 then
           .error ("boxes_data[batch].length must be " ++ toString (4 + C + nc.getD 32))
         else if ((((c0 :: crest) :: rrest).length : ℚ) ≠ (getMaskShape shape).height) then
           .error ("masks_data[batch].length must be " ++ toString (getMaskShape shape).height)
         else if (((c0 :: crest).length : ℚ) ≠ (getMaskShape shape).width) then
           .error ("masks_data[batch][y].length must be " ++ toString (getMaskShape shape).width)
         else if c0.length ≠ nc.getD 32 then
           .error ("masks_data[batch][y][x].length must be " ++ toString (nc.getD 32))
         else if (s0 :: srest).length ≠ (((c0 :: crest) :: rrest) :: mrest).length then
           .error "boxes_data and masks_data must have the same length"
         else
           .ok ((List.range (s0 :: srest).length).map fun bi =>
             { bounding_boxes := decodeSegmentBatch nms C (nc.getD 32) ((s0.headD []).length)
                 mos iou st ((s0 :: srest).getD bi [])
               masks := (((c0 :: crest) :: rrest) :: mrest).getD bi [] })) := rfl

/-- Claim C5: when `maxOutputSize` is omitted, every NMS-capable decoder
(detection, both pose revisions, segmentation) returns, for every batch,
exactly one detection per candidate slot in original slot order, each
materialised from its own slot's channels — for every NMS oracle, hence
independently of the scores. -/
theorem decode_without_maxOutputSize_returns_every_slot
    (nms nms2 nms3 nms4 : NmsFn) (C K : Nat) (vis : Bool)
    (iou st iou2 st2 iou3 st3 iou4 st4 : Option ℚ)
    (b0 p0 v0 s0 : List (List ℚ)) (brest prest vrest srest : List (List (List ℚ)))
    (nc : Option Nat) (c0 : List ℚ) (crest : List (List ℚ)) (rrest : List (List (List ℚ)))
    (mrest : List (List (List (List ℚ)))) (shape : MaskShapeArg)
    (hbl : b0.length = 4 + C) (hpl : p0.length = 4 + C + K * 3)
    (hvl : v0.length = 4 + C + K * (if vis then 3 else 2))
    (hsl : s0.length = 4 + C + nc.getD 32)
    (hmh : (((c0 :: crest) :: rrest).length : ℚ) = (getMaskShape shape).height)
    (hmw : ((c0 :: crest).length : ℚ) = (getMaskShape shape).width)
    (hmc : c0.length = nc.getD 32)
    (hbc : (s0 :: srest).length = (((c0 :: crest) :: rrest) :: mrest).length) :
    decodeBox nms { num_classes := C, output := b0 :: brest, maxOutputSize := none,
                    iouThreshold := iou, scoreThreshold := st }
      = .ok ((b0 :: brest).map fun batch =>
          (List.range (b0.headD []).length).map (slotBox C batch))
    ∧ decodePose nms2 { num_classes := C, num_keypoints := K, output := p0 :: prest,
                        maxOutputSize := none, iouThreshold := iou2, scoreThreshold := st2 }
      = .ok ((p0 :: prest).map fun batch =>
          (List.range (p0.headD []).length).map (slotPoseBox C K batch))
    ∧ decodePoseV nms3 { num_classes := C, num_keypoints := K, visibility := vis,
                         output := v0 :: vrest, maxOutputSize := none, iouThreshold := iou3,
                         scoreThreshold := st3 }
      = .ok ((v0 :: vrest).map fun batch =>
          (List.range (v0.headD []).length).map (slotPoseVBox vis C K batch))
    ∧ decodeSegment nms4 { num_classes := C, num_channels := nc, output_boxes := s0 :: srest,
                           output_masks := ((c0 :: crest) :: rrest) :: mrest,
                           maxOutputSize := none, iouThreshold := iou4,
                           scoreThreshold := st4, shape := shape }
      = .ok ((List.range (s0 :: srest).length).map fun bi =>
          { bounding_boxes := (List.range (s0.headD []).length).map
              (slotSegmentBox C (nc.getD 32) ((s0 :: srest).getD bi []))
            masks := (((c0 :: crest) :: rrest) :: mrest).getD bi [] }) := by
  refine ⟨?_, ?_, ?_, ?_⟩
  · rw [decodeBox_cons, if_neg (by omega), if_neg (by omega)]
    refine congrArg Except.ok ?_
    apply List.map_congr_left
    intro batch _
    simp only [decodeBoxBatch, selectBoxIndices]
    apply List.map_congr_left
    intro i hi
    have hi2 : i < (b0.headD []).length := List.mem_range.mp hi
    simp only [mkBoundingBox, slotBox, getD_range_map hi2]
  · rw [decodePose_cons, if_neg (by omega), if_neg (by omega)]
    refine congrArg Except.ok ?_
    apply List.map_congr_left
    intro batch _
    simp only [decodePoseBatch, selectBoxIndices]
    apply List.map_congr_left
    intro i hi
    have hi2 : i < (p0.headD []).length := List.mem_range.mp hi
    simp only [mkPoseBox, mkBoundingBox, slotPoseBox, getD_range_map hi2]
  · rw [decodePoseV_cons, if_neg (by rw [hvl]; cases vis <;> simp),
      if_neg (fun h => h hvl)]
    refine congrArg Except.ok ?_
    apply List.map_congr_left
    intro batch _
    simp only [decodePoseVBatch, selectBoxIndices]
    apply List.map_congr_left
    intro i hi
    have hi2 : i < (v0.headD []).length := List.mem_range.mp hi
    simp only [mkPoseVBox, mkBoundingBox, slotPoseVBox, getD_range_map hi2]
  · rw [decodeSegment_cons, if_neg (by omega), if_neg (by omega),
      if_neg (fun h => h hmh), if_neg (fun h => h hmw), if_neg (by omega), if_neg (by omega)]
    refine congrArg Except.ok ?_
    apply List.map_congr_left
    intro bi _
    have hbb : decodeSegmentBatch nms4 C (nc.getD 32) ((s0.headD []).length)
        none iou4 st4 ((s0 :: srest).getD bi [])
        = (List.range (s0.headD []).length).map
            (slotSegmentBox C (nc.getD 32) ((s0 :: srest).getD bi [])) := by
      simp only [decodeSegmentBatch, selectBoxIndices]
      apply List.map_congr_left
      intro i hi
      have hi2 : i < (s0.headD []).length := List.mem_range.mp hi
      simp only [mkSegmentBox, mkBoundingBox, slotSegmentBox, getD_range_map hi2]
    rw [hbb]

/-- Claim C5, witness: concrete inputs for all four NMS-capable decoders
with `maxOutputSize` omitted return all slots in order. -/
theorem decode_without_maxOutputSize_returns_every_slot_case :
    decodeBox trivialNms { num_classes := 1,
                           output := [[[1, 2], [3, 4], [2, 2], [2, 2], [5, 6]]],
                           maxOutputSize := none, iouThreshold := none,
                           scoreThreshold := none }
      = .ok [[{ x := 1, y := 3, width := 2, height := 2, class_index := 0,
                confidence := 5, all_confidences := [5] },
              { x := 2, y := 4, width := 2, height := 2, class_index := 0,
                confidence := 6, all_confidences := [6] }]]
    ∧ decodePose trivialNms { num_classes := 1, num_keypoints := 1,
                              output := [[[1], [2], [2], [2], [7], [8], [9], [10]]],
                              maxOutputSize := none, iouThreshold := none,
                              scoreThreshold := none }
      = .ok [[{ x := 1, y := 2, width := 2, height := 2, class_index := 0,
                confidence := 7, all_confidences := [7],
                keypoints := [{ x := 8, y := 9, visibility := 10 }] }]]
    ∧ decodePoseV trivialNms { num_classes := 1, num_keypoints := 1, visibility := true,
                               output := [[[1], [2], [2], [2], [9], [5], [6], [7]]],
                               maxOutputSize := none, iouThreshold := none,
                               scoreThreshold := none }
      = .ok [[{ x := 1, y := 2, width := 2, height := 2, class_index := 0,
                confidence := 9, all_confidences := [9],
                keypoints := [{ x := 5, y := 6, visibility := 7 }] }]]
    ∧ decodeSegment trivialNms { num_classes := 1, num_channels := some 2,
                                 output_boxes := [[[1], [2], [2], [2], [9], [3], [4]]],
                                 output_masks := [[[[5, 6]]]], maxOutputSize := none,
                                 iouThreshold := none, scoreThreshold := none,
                                 shape := .mask_shape { width := 1, height := 1 } }
      = .ok [{ bounding_boxes := [{ x := 1, y := 2, width := 2, height := 2,
                                    class_index := 0, confidence := 9,
                                    all_confidences := [9], mask_coefficients := [3, 4] }],
               masks := [[[5, 6]]] }] := by
  have h := decode_without_maxOutputSize_returns_every_slot
    trivialNms trivialNms trivialNms trivialNms 1 1 true
    none none none none none none none none
    [[1, 2], [3, 4], [2, 2], [2, 2], [5, 6]]
    [[1], [2], [2], [2], [7], [8], [9], [10]]
    [[1], [2], [2], [2], [9], [5], [6], [7]]
    [[1], [2], [2], [2], [9], [3], [4]]
    [] [] [] [] (some 2) [5, 6] [] [] []
    (.mask_shape { width := 1, height := 1 })
    (by decide) (by decide) (by decide) (by decide) (by decide) (by decide) (by decide)
    (by decide)
  refine ⟨?_, ?_, ?_, ?_⟩
  · rw [h.1]
    decide
  · rw [h.2.1]
    decide
  · rw [h.2.2.1]
    decide
  · rw [h.2.2.2]
    decide

/-- Claim C7: for a coefficient vector matching the prototype channel
count, `combineMask` returns the mask whose value at every pixel `(h, w)`
is `sigmoid (Σ_i coefficient[i] * prototype[h][w][i])`; with an all-zero
coefficient vector every pixel is `1 / 2`. -/
theorem combineMask_sigmoid_formula (coeffs cell0 : List ℚ) (cells : List (List ℚ))
    (rows : List (List (List ℚ))) (hlen : coeffs.length = cell0.length) :
    combineMask coeffs ((cell0 :: cells) :: rows)
      = .ok ((List.range ((cell0 :: cells) :: rows).length).map fun h =>
          (List.range (cell0 :: cells).length).map fun w =>
            sigmoid ((((List.range cell0.length).map fun i =>
              coeffs.getD i 0 * get3 ((cell0 :: cells) :: rows) h w i).sum : ℚ) : ℝ))
    ∧ ((∀ c ∈ coeffs, c = 0) →
        combineMask coeffs ((cell0 :: cells) :: rows)
          = .ok ((List.range ((cell0 :: cells) :: rows).length).map fun _ =>
              (List.range (cell0 :: cells).length).map fun _ => (1 / 2 : ℝ))) := by
  have hmain : combineMask coeffs ((cell0 :: cells) :: rows)
      = .ok ((List.range ((cell0 :: cells) :: rows).length).map fun h =>
          (List.range (cell0 :: cells).length).map fun w =>
            sigmoid ((((List.range cell0.length).map fun i =>
              coeffs.getD i 0 * get3 ((cell0 :: cells) :: rows) h w i).sum : ℚ) : ℝ)) := by
    simp only [combineMask, combineMaskRaw]
    rw [if_neg (by omega)]
    simp only [Except.map]
    refine congrArg Except.ok ?_
    simp only [List.map_map]
    apply List.map_congr_left
    intro h _
    simp only [Function.comp, List.map_map]
    apply List.map_congr_left
    intro w _
    simp only [Function.comp, foldl_add_sum, zero_add]
  refine ⟨hmain, fun hz => ?_⟩
  rw [hmain]
  refine congrArg Except.ok ?_
  apply List.map_congr_left
  intro h _
  apply List.map_congr_left
  intro w _
  have hsum : ((List.range cell0.length).map fun i =>
      coeffs.getD i 0 * get3 ((cell0 :: cells) :: rows) h w i).sum = 0 := by
    apply List.sum_eq_zero
    intro q hq
    rcases List.mem_map.mp hq with ⟨i, hi, rfl⟩
    have hi2 : i < coeffs.length := by
      rw [hlen]
      exact List.mem_range.mp hi
    have hc : coeffs.getD i 0 = 0 := by
      rw [List.getD_eq_getElem coeffs 0 hi2]
      exact hz _ (List.getElem_mem hi2)
    rw [hc, zero_mul]
  rw [hsum]
  simp only [sigmoid, Rat.cast_zero, neg_zero, Real.exp_zero]
  norm_num

/-- Claim C7, witness: a single-pixel, single-channel prototype with the
all-zero coefficient vector composites to the constant mask `1 / 2`. -/
theorem combineMask_sigmoid_formula_case :
    combineMask [0] [[[5]]] = .ok [[(1 / 2 : ℝ)]] := by
  have h := (combineMask_sigmoid_formula [0] [5] [] [] (by decide)).2 (by decide)
  simpa using h

/-- Claim C9: `combineMask` fails with an error whenever the coefficient
vector length differs from the prototype tensor's channel count, producing
no mask. -/
theorem combineMask_rejects_mismatched_coefficients (coeffs cell0 : List ℚ)
    (cells : List (List ℚ)) (rows : List (List (List ℚ)))
    (hne : cell0.length ≠ coeffs.length) :
    combineMask coeffs ((cell0 :: cells) :: rows)
      = .error ("expect " ++ toString cell0.length ++ " mask coefficients, but got "
          ++ toString coeffs.length) := by
  simp only [combineMask, combineMaskRaw]
  rw [if_pos hne]
  rfl

/-- Claim C9, witness: two coefficients against a one-channel prototype
raise the mismatch error. -/
theorem combineMask_rejects_mismatched_coefficients_case :
    combineMask [1, 2] [[[3]]] = .error "expect 1 mask coefficients, but got 2" :=
  combineMask_rejects_mismatched_coefficients [1, 2] [3] [] [] (by decide)
